import Mathlib

/-!
Verification of the A2L writer (`src/flashcontainer/a2lwriter.py`) of the
parameter-container generator.  The writer is embedded shallowly: every hook
of `A2lWriter` becomes a Lean function producing the text it writes (fallible
hooks return `Except`).  The data model (`flashcontainer.datamodel`) and the
byte-size registry (`flashcontainer.byteconv`) are not part of the given
sources; the parts the writer needs are modelled from the specification and
marked as such.
-/

set_option maxRecDepth 10000

namespace A2l

/-- Modelled from the spec: `ParamType` of `flashcontainer.datamodel`, the
closed enumeration {8/16/32/64-bit unsigned, 8/16/32/64-bit signed,
32/64-bit IEEE float, UTF-8 text} (spec section 3). -/
inductive ParamType where
  | uint8 | uint16 | uint32 | uint64
  | int8 | int16 | int32 | int64
  | float32 | float64
  | utf8
  deriving DecidableEq, Repr

/-- Modelled from the spec: `Endianness` of `flashcontainer.datamodel`,
the closed enumeration {little-endian, big-endian} (spec section 3). -/
inductive Endianness where
  | le | be
  deriving DecidableEq, Repr

/-- Modelled from the spec: a `Parameter` of the data model — a named value
with a type tag, a byte-serialized payload, a byte offset relative to its
block, and an optional comment (spec section 3).  Only the byte count of the payload
matters to the writer (it reads `len(param.value)`). -/
structure Parameter where
  name : String
  ptype : ParamType
  value : List Nat
  offset : Nat
  comment : Option String
  deriving DecidableEq, Repr

/-- Modelled from the spec: a `Block` of the data model — a region with a
base address, an endianness, an optional header descriptor and an ordered
parameter list (spec section 3).  The writer only tests the header for
presence, so it is modelled as `Option Unit`. -/
structure Block where
  name : String
  addr : Nat
  endianess : Endianness
  header : Option Unit
  parameter : List Parameter
  deriving DecidableEq, Repr

/-- Modelled from the spec: a `Container` — a named grouping of blocks. -/
structure Container where
  name : String
  blocks : List Block
  deriving DecidableEq, Repr

/-- Modelled from the spec: the root `Model`, an ordered container sequence. -/
structure Model where
  container : List Container
  deriving DecidableEq, Repr

/-- The run options of the writer (`options.get(...)` keys used by `A2lWriter`).
`STATICOUTPUT` is `Option Bool` because `dict.get` yields `None` for an
absent key, and the source compares the value with `is False`. -/
structure Options where
  DESTDIR : String
  BASENAME : String
  PNAME : String
  VERSION : String
  INPUT : String
  CMDLINE : String
  STATICOUTPUT : Option Bool
  DATETIME : String
  GUID : String
  deriving DecidableEq, Repr

/-- Modelled from the spec: `ByteConvert.get_type_size` of
`flashcontainer.byteconv` — the element byte size of one scalar instance of
each type (spec sections 3 and 4.1: 8/16/32/64-bit scalars occupy 1/2/4/8
bytes, each byte of a text value is one array element). -/
def get_type_size : ParamType → Nat
  | .uint8 => 1
  | .uint16 => 2
  | .uint32 => 4
  | .uint64 => 8
  | .int8 => 1
  | .int16 => 2
  | .int32 => 4
  | .int64 => 8
  | .float32 => 4
  | .float64 => 8
  | .utf8 => 1

/-- Source `A2lWriter._TYPE_MAPPING`: type → (wire name, min, max).  The numeric
entries are the integer literals of the source; the float entries model the
decimal literals of the source (`1.175494351E-38`, `3.402823466E+38`,
`2.2250738585072014E-308`, `1.7976931348623158E+308`) as exact rationals. -/
def TYPE_MAPPING : ParamType → String × ℚ × ℚ
  | .uint8 => ("UBYTE", 0, 0xFF)
  | .uint16 => ("UWORD", 0, 0xFFFF)
  | .uint32 => ("ULONG", 0, 0xFFFFFFFF)
  | .uint64 => ("A_UINT64", 0, 0xFFFFFFFFFFFFFFFF)
  | .int8 => ("SBYTE", -128, 127)
  | .int16 => ("SWORD", -32768, 32767)
  | .int32 => ("SLONG", -2147483648, 2147483647)
  | .int64 => ("_A_INT64", -9223372036854775808, 9223372036854775807)
  | .float32 => ("FLOAT32_IEEE", 1175494351 / 10 ^ 47, 3402823466 * 10 ^ 29)
  | .float64 => ("FLOAT64_IEEE", 22250738585072014 / 10 ^ 324, 17976931348623158 * 10 ^ 292)
  | .utf8 => ("UBYTE", 0, 0xFF)

/-- Source `A2lWriter._BYTEORDER_MAPPING`: endianness → wire token. -/
def BYTEORDER_MAPPING : Endianness → String
  | .le => "MSB_LAST"
  | .be => "MSB_FIRST"

/-- The text the Python f-string prints for the min entry of
`_TYPE_MAPPING[t]` (decimal rendering of the int literals, `repr` of the
float literals). -/
def minText : ParamType → String
  | .uint8 => "0"
  | .uint16 => "0"
  | .uint32 => "0"
  | .uint64 => "0"
  | .int8 => "-128"
  | .int16 => "-32768"
  | .int32 => "-2147483648"
  | .int64 => "-9223372036854775808"
  | .float32 => "1.175494351e-38"
  | .float64 => "2.2250738585072014e-308"
  | .utf8 => "0"

/-- The text the Python f-string prints for the max entry of
`_TYPE_MAPPING[t]`. -/
def maxText : ParamType → String
  | .uint8 => "255"
  | .uint16 => "65535"
  | .uint32 => "4294967295"
  | .uint64 => "18446744073709551615"
  | .int8 => "127"
  | .int16 => "32767"
  | .int32 => "2147483647"
  | .int64 => "9223372036854775807"
  | .float32 => "3.402823466e+38"
  | .float64 => "1.7976931348623158e+308"
  | .utf8 => "255"

/-- Python `hex` on a non-negative int: `0x` followed by lowercase
hexadecimal digits. -/
def pyHex (n : Nat) : String :=
  "0x" ++ String.mk (Nat.toDigits 16 n)

/-- Python `str.splitlines`, restricted to the line separators that
matter here: a line break is `\r\n`, `\r` or `\n`; a trailing fragment
without a final break is its own line; the empty string has no lines. -/
def splitlinesGo : List Char → List Char → List String
  | [], acc => if acc = [] then [] else [String.mk acc.reverse]
  | '\r' :: '\n' :: rest, acc => String.mk acc.reverse :: splitlinesGo rest []
  | '\n' :: rest, acc => String.mk acc.reverse :: splitlinesGo rest []
  | '\r' :: rest, acc => String.mk acc.reverse :: splitlinesGo rest []
  | c :: rest, acc => splitlinesGo rest (c :: acc)

/-- Python `str.splitlines` on a string. -/
def splitlines (s : String) : List String :=
  splitlinesGo s.data []

/-- Substring test: `strContains s pat` is true when `pat` occurs
contiguously inside `s`. -/
def strContains (s pat : String) : Bool :=
  (List.range (s.data.length + 1)).any fun i => pat.data.isPrefixOf (s.data.drop i)

/-- The two extra header-comment lines of `pre_run`
(`" * Date: ..."` and `" * Buildkey: ..."`). -/
def dateLines (o : Options) : String :=
  " * Date: " ++ o.DATETIME ++ "\n" ++ " * Buildkey: " ++ o.GUID ++ "\n"

/-- Source `A2lWriter.pre_run`: the text written to the output stream before the
model is traversed (path resolution and stream opening are side effects
outside the embedding).  The date/buildkey lines are written exactly when
`options.get("STATICOUTPUT") is False`, i.e. when the key is present with
value `False`. -/
def pre_run (o : Options) : String :=
  ("/* AUTOGENERATED by " ++ o.PNAME ++ " " ++ o.VERSION ++ "\n"
    ++ " * A2L parameter description for " ++ o.INPUT ++ "\n"
    ++ " * cmd: " ++ o.CMDLINE ++ "\n")
  ++ (if o.STATICOUTPUT = some false then dateLines o else (""))
  ++ " */\n\n"
  ++ "ASAP2_VERSION 1 70\n"
  ++ ("/begin PROJECT " ++ o.BASENAME ++ " \"\"\n\n")
  ++ ("  /begin HEADER \"" ++ o.BASENAME ++ "\"\n")
  ++ "  /end HEADER \n\n"

/-- Source `A2lWriter.begin_container`. -/
def begin_container (c : Container) : String :=
  "  /begin MODULE " ++ c.name ++ " \"\"\n"

/-- Source `A2lWriter.end_container`. -/
def end_container (_c : Container) : String :=
  "\n  /end MODULE\n"

/-- The header text written by `begin_block` for a block with a header
(source lines 101-160): the two TYPEDEF_MEASUREMENT sections, the
TYPEDEF_STRUCTURE section and the INSTANCE section, chunked by the
f-string lines of the source. -/
def blockHeaderText (block : Block) : String :=
  "\n"
  ++ "    /begin TYPEDEF_MEASUREMENT\n"
  ++ ("        T_" ++ block.name ++ "_USHORT\n")
  ++ "        \"block 16 bit parameter type\"\n"
  ++ ("        " ++ (TYPE_MAPPING .uint16).1 ++ "\n")
  ++ "        NO_COMPU_METHOD \n"
  ++ "        0\n"
  ++ "        0\n"
  ++ ("        " ++ minText .uint16 ++ "\n")
  ++ ("        " ++ maxText .uint16 ++ "\n")
  ++ "    /end TYPEDEF_MEASUREMENT\n"
  ++ "\n"
  ++ "    /begin TYPEDEF_MEASUREMENT\n"
  ++ ("        T_" ++ block.name ++ "_ULONG\n")
  ++ "        \"block 32 bit parameter type\"\n"
  ++ ("        " ++ (TYPE_MAPPING .uint32).1 ++ "\n")
  ++ "        NO_COMPU_METHOD \n"
  ++ "        0\n"
  ++ "        0\n"
  ++ ("        " ++ minText .uint32 ++ "\n")
  ++ ("        " ++ maxText .uint32 ++ "\n")
  ++ "    /end TYPEDEF_MEASUREMENT\n"
  ++ "\n"
  ++ "    /begin TYPEDEF_STRUCTURE\n"
  ++ ("        " ++ block.name ++ "_header_type_t\n")
  ++ "        \"Block header structure\"\n"
  ++ "        16\n"
  ++ "        /begin STRUCTURE_COMPONENT\n"
  ++ ("            id T_" ++ block.name ++ "_USHORT\n")
  ++ "            0\n"
  ++ "        /end STRUCTURE_COMPONENT\n"
  ++ "        /begin STRUCTURE_COMPONENT\n"
  ++ ("            major T_" ++ block.name ++ "_USHORT\n")
  ++ "            2\n"
  ++ "        /end STRUCTURE_COMPONENT\n"
  ++ "        /begin STRUCTURE_COMPONENT\n"
  ++ ("            minor T_" ++ block.name ++ "_USHORT\n")
  ++ "            4\n"
  ++ "        /end STRUCTURE_COMPONENT\n"
  ++ "        /begin STRUCTURE_COMPONENT\n"
  ++ ("            dataver T_" ++ block.name ++ "_USHORT\n")
  ++ "            6\n"
  ++ "        /end STRUCTURE_COMPONENT\n"
  ++ "        /begin STRUCTURE_COMPONENT\n"
  ++ ("           reserved T_" ++ block.name ++ "_ULONG\n")
  ++ "            8\n"
  ++ "        /end STRUCTURE_COMPONENT\n"
  ++ "        /begin STRUCTURE_COMPONENT\n"
  ++ ("           length T_" ++ block.name ++ "_ULONG\n")
  ++ "            12\n"
  ++ "        /end STRUCTURE_COMPONENT\n"
  ++ "    /end TYPEDEF_STRUCTURE\n"
  ++ "    /begin INSTANCE\n"
  ++ ("        " ++ block.name ++ "_blkhdr\n")
  ++ "        \"block header instance\"\n"
  ++ ("        " ++ block.name ++ "_header_type_t\n")
  ++ ("        " ++ pyHex block.addr ++ "\n")
  ++ "    /end INSTANCE\n"

/-- Source `A2lWriter.begin_block`: the header text when the block has a
header, nothing otherwise. -/
def begin_block (block : Block) : String :=
  match block.header with
  | none => ""
  | some _ => blockHeaderText block

/-- The description text of `begin_parameter` (source lines 169-172):
the first line of the comment when a comment is present — an
`IndexError` when the comment is the empty string, since
`"".splitlines()` is `[]` — else the fixed placeholder. -/
def descrText : Option String → Except String String
  | some c =>
    match splitlines c with
    | [] => .error ("IndexError: list index out of range")
    | l :: _ => .ok l
  | none => .ok ("No comment defined")

/-- The conditional MATRIX_DIM line of `begin_parameter` (source lines
185-188): emitted when the type is UTF8 or the element size is smaller
than the payload length, with value `len(value) / element_size`
(`int()` of the float quotient, i.e. the integer quotient here). -/
def matrixLine (p : Parameter) : String :=
  if p.ptype = ParamType.utf8 ∨ get_type_size p.ptype < p.value.length then
    "        MATRIX_DIM " ++ toString (p.value.length / get_type_size p.ptype) ++ "\n"
  else ("")

/-- The record-opening write of `begin_parameter` (source line 166). -/
def recordOpen (p : Parameter) : String :=
  "\n    /begin MEASUREMENT " ++ p.name ++ "\n"

/-- The quoted description writes of `begin_parameter` (source lines
168 and 173), given the already rendered description text. -/
def descrQuoted (descr : String) : String :=
  "        \"" ++ descr ++ "\"\n"

/-- The wire-type/limits/byte-order write of `begin_parameter` (source
lines 175-183): the registry wire name, the fixed NO_COMPU_METHOD marker,
the registry minimum and maximum, and the byte-order token of the owning
block. -/
def typeLimitsPart (blk : Block) (p : Parameter) : String :=
  ("        " ++ (TYPE_MAPPING p.ptype).1 ++ "\n")
  ++ "        NO_COMPU_METHOD \n"
  ++ "        0\n"
  ++ "        0\n"
  ++ ("        " ++ minText p.ptype ++ "\n")
  ++ ("        " ++ maxText p.ptype ++ "\n")
  ++ ("        BYTE_ORDER " ++ BYTEORDER_MAPPING blk.endianess ++ "\n")

/-- The address lines of the final write of `begin_parameter` (source
lines 191-192): the ECU address as a hexadecimal literal of the raw
parameter offset, then the fixed zero extension tag. -/
def ecuLines (p : Parameter) : String :=
  "        ECU_ADDRESS " ++ pyHex p.offset ++ "\n"
  ++ "        ECU_ADDRESS_EXTENSION 0x0\n"

/-- The display/access lines of the final write of `begin_parameter`
(source lines 193-194). -/
def dispLines (p : Parameter) : String :=
  ("        DISPLAY_IDENTIFIER " ++ p.name ++ "\n")
  ++ "        READ_WRITE\n"

/-- The MEASUREMENT record text of `begin_parameter`, given the already
rendered description: the writes of the source in order. -/
def measurementText (blk : Block) (p : Parameter) (descr : String) : String :=
  recordOpen p
  ++ descrQuoted descr
  ++ typeLimitsPart blk p
  ++ matrixLine p
  ++ (ecuLines p ++ dispLines p)
  ++ "    /end MEASUREMENT\n"

/-- Source `A2lWriter.begin_parameter`: one MEASUREMENT record for the parameter,
with the owning block as ambient context (`self.ctx_block`).  Fails when
rendering the description raises. -/
def begin_parameter (blk : Block) (p : Parameter) : Except String String :=
  (descrText p.comment).map (measurementText blk p)

/-- Source `A2lWriter.post_run`: the project-close wrapper. -/
def post_run : String :=
  "\n/end PROJECT\n"

/-- Modelled from the spec: one block step of the traversal engine
(spec section 4.3) — `begin_block`, then `begin_parameter` for each
parameter in order; a hook failure aborts the run. -/
def runBlock (b : Block) : Except String String :=
  (b.parameter.mapM (begin_parameter b)).map fun outs =>
    begin_block b ++ String.join outs

/-- Modelled from the spec: one container step of the traversal engine
(spec section 4.3). -/
def runContainer (c : Container) : Except String String :=
  (c.blocks.mapM runBlock).map fun outs =>
    begin_container c ++ String.join outs ++ end_container c

/-- Modelled from the spec: a complete generation run (spec section 4.3) —
`pre_run`, the containers in declaration order, `post_run`; the whole
output text of the run. -/
def run (m : Model) (o : Options) : Except String String :=
  (m.container.mapM runContainer).map fun outs =>
    pre_run o ++ String.join outs ++ post_run

/-- The first three header-comment lines of `pre_run` (tool name, version,
input path, command line). -/
def headerIntro (o : Options) : String :=
  "/* AUTOGENERATED by " ++ o.PNAME ++ " " ++ o.VERSION ++ "\n"
  ++ " * A2L parameter description for " ++ o.INPUT ++ "\n"
  ++ " * cmd: " ++ o.CMDLINE ++ "\n"

/-- The text `pre_run` writes after the optional date/buildkey lines:
comment close, version token, project open, empty header block. -/
def headerRest (o : Options) : String :=
  " */\n\n"
  ++ "ASAP2_VERSION 1 70\n"
  ++ ("/begin PROJECT " ++ o.BASENAME ++ " \"\"\n\n")
  ++ ("  /begin HEADER \"" ++ o.BASENAME ++ "\"\n")
  ++ "  /end HEADER \n\n"

/-- Spec reading for claim C8: one measurement-type declaration named by
concatenating the block name with a type suffix, carrying the given
description text and the registry-derived wire name and range of `t`. -/
def specTypedefMeasurement (blockName suffix descr : String) (t : ParamType) : String :=
  "    /begin TYPEDEF_MEASUREMENT\n"
  ++ ("        " ++ ("T_" ++ blockName ++ suffix) ++ "\n")
  ++ ("        \"" ++ descr ++ "\"\n")
  ++ ("        " ++ (TYPE_MAPPING t).1 ++ "\n")
  ++ "        NO_COMPU_METHOD \n"
  ++ "        0\n"
  ++ "        0\n"
  ++ ("        " ++ minText t ++ "\n")
  ++ ("        " ++ maxText t ++ "\n")
  ++ "    /end TYPEDEF_MEASUREMENT\n"

/-- Spec reading for claim C8: one structure component, binding a field name
to a measurement type name and a byte offset (`pad` is the leading
whitespace the emitter puts on the field line). -/
def specStructureComponent (pad fieldName typeName : String) (offset : Nat) : String :=
  "        /begin STRUCTURE_COMPONENT\n"
  ++ (pad ++ fieldName ++ " " ++ typeName ++ "\n")
  ++ ("            " ++ toString offset ++ "\n")
  ++ "        /end STRUCTURE_COMPONENT\n"

/-- Spec reading for claim C8: the six header fields id, major, minor,
dataver, reserved, length at their fixed byte offsets 0, 2, 4, 6, 8, 12 —
the first four bound to the 16-bit measurement type of the block, the last two
to its 32-bit measurement type (each entry: pad, field name, type name,
offset). -/
def specHeaderFields (blockName : String) : List (String × String × String × Nat) :=
  [("            ", "id", "T_" ++ blockName ++ "_USHORT", 0),
   ("            ", "major", "T_" ++ blockName ++ "_USHORT", 2),
   ("            ", "minor", "T_" ++ blockName ++ "_USHORT", 4),
   ("            ", "dataver", "T_" ++ blockName ++ "_USHORT", 6),
   ("           ", "reserved", "T_" ++ blockName ++ "_ULONG", 8),
   ("           ", "length", "T_" ++ blockName ++ "_ULONG", 12)]

/-- Spec reading for claim C8: a structure-type declaration named
`<block>_header_type_t` with the given total size, listing the given
components in order. -/
def specStructTypedef (blockName : String) (totalSize : Nat)
    (fields : List (String × String × String × Nat)) : String :=
  "    /begin TYPEDEF_STRUCTURE\n"
  ++ ("        " ++ (blockName ++ "_header_type_t") ++ "\n")
  ++ "        \"Block header structure\"\n"
  ++ ("        " ++ toString totalSize ++ "\n")
  ++ String.join (fields.map fun f => specStructureComponent f.1 f.2.1 f.2.2.1 f.2.2.2)
  ++ "    /end TYPEDEF_STRUCTURE\n"

/-- Spec reading for claim C8: a structure-instance declaration binding the
header structure type of the block to its base address rendered as a
hexadecimal literal. -/
def specInstance (blockName : String) (addr : Nat) : String :=
  "    /begin INSTANCE\n"
  ++ ("        " ++ (blockName ++ "_blkhdr") ++ "\n")
  ++ "        \"block header instance\"\n"
  ++ ("        " ++ (blockName ++ "_header_type_t") ++ "\n")
  ++ ("        " ++ pyHex addr ++ "\n")
  ++ "    /end INSTANCE\n"

/-! Helper lemmas. -/

lemma get_type_size_pos (t : ParamType) : 0 < get_type_size t := by
  cases t <;> decide

lemma splitlinesGo_eq_nil (l acc : List Char) :
    splitlinesGo l acc = [] ↔ l = [] ∧ acc = [] := by
  induction l, acc using splitlinesGo.induct <;> simp only [splitlinesGo] <;>
    aesop

lemma splitlines_eq_nil (s : String) : splitlines s = [] ↔ s = "" := by
  rw [splitlines, splitlinesGo_eq_nil]
  constructor
  · rintro ⟨h, -⟩
    cases s
    simp_all
  · rintro rfl
    exact ⟨rfl, rfl⟩

lemma strContains_of_parts (x pat y : String) :
    strContains (x ++ (pat ++ y)) pat = true := by
  rw [strContains, List.any_eq_true]
  refine ⟨x.data.length, ?_, ?_⟩
  · rw [List.mem_range]
    simp [String.data_append]
    omega
  · rw [String.data_append, String.data_append, List.drop_left,
      List.isPrefixOf_iff_prefix]
    exact List.prefix_append _ _

lemma pre_run_split (o : Options) :
    pre_run o = headerIntro o
      ++ ((if o.STATICOUTPUT = some false then dateLines o else (""))
        ++ headerRest o) := by
  simp only [pre_run, headerIntro, headerRest, String.append_assoc]

lemma pre_run_static_false (o : Options) (h : o.STATICOUTPUT = some false) :
    pre_run o = headerIntro o ++ (dateLines o ++ headerRest o) := by
  rw [pre_run_split, if_pos h]

lemma pre_run_not_static_false (o : Options) (h : ¬o.STATICOUTPUT = some false) :
    pre_run o = headerIntro o ++ headerRest o := by
  rw [pre_run_split, if_neg h, String.empty_append]

set_option maxHeartbeats 2000000 in
lemma blockHeaderText_eq_spec (b : Block) :
    blockHeaderText b
      = "\n"
        ++ specTypedefMeasurement (b.name) "_USHORT" "block 16 bit parameter type" .uint16
        ++ "\n"
        ++ specTypedefMeasurement (b.name) "_ULONG" "block 32 bit parameter type" .uint32
        ++ "\n"
        ++ specStructTypedef (b.name) 16 (specHeaderFields (b.name))
        ++ specInstance (b.name) b.addr := by
  simp only [blockHeaderText, specTypedefMeasurement, specStructTypedef,
    specInstance, specStructureComponent, specHeaderFields,
    List.map_cons, List.map_nil, String.join, List.foldl_cons, List.foldl_nil,
    String.append_assoc, String.empty_append]
  rfl

lemma headerIntro_congr (o1 o2 : Options) (hP : o1.PNAME = o2.PNAME)
    (hV : o1.VERSION = o2.VERSION) (hI : o1.INPUT = o2.INPUT)
    (hC : o1.CMDLINE = o2.CMDLINE) : headerIntro o1 = headerIntro o2 := by
  simp only [headerIntro, hP, hV, hI, hC]

lemma headerRest_congr (o1 o2 : Options) (hB : o1.BASENAME = o2.BASENAME) :
    headerRest o1 = headerRest o2 := by
  simp only [headerRest, hB]

/-! Claim theorems. -/

/-- C1: `begin_parameter` emits the MATRIX_DIM marker (through `matrixLine`)
with value `payloadLength / elementSize` iff the type of the parameter is the
text type or the element size is smaller than the payload length; a numeric
parameter whose payload is exactly one element emits no marker, a numeric
payload of `k > 1` elements emits value `k`, and a text-type parameter with
an `N`-byte payload always emits value `N`. -/
theorem c1_matrix_dim (p : Parameter) :
    (matrixLine p = "" ↔
      ¬(p.ptype = ParamType.utf8 ∨ get_type_size p.ptype < p.value.length))
    ∧ (∀ k : Nat, get_type_size p.ptype < p.value.length →
        p.value.length = k * get_type_size p.ptype →
        matrixLine p = "        MATRIX_DIM " ++ toString k ++ "\n")
    ∧ (p.ptype = ParamType.utf8 →
        matrixLine p = "        MATRIX_DIM " ++ toString p.value.length ++ "\n")
    ∧ (¬p.ptype = ParamType.utf8 → p.value.length = get_type_size p.ptype →
        matrixLine p = "") := by
  refine ⟨⟨fun h hc => ?_, fun hc => by rw [matrixLine, if_neg hc]⟩,
    fun k hlt hk => ?_, fun hu => ?_, fun hu hlen => ?_⟩
  · rw [matrixLine, if_pos hc] at h
    have hlen := congrArg String.length h
    rw [String.length_append, String.length_append] at hlen
    have h1 : ("        MATRIX_DIM " : String).length = 19 := rfl
    have h2 : ("\n" : String).length = 1 := rfl
    have h3 : ("" : String).length = 0 := rfl
    omega
  · rw [matrixLine, if_pos (Or.inr hlt), hk,
      Nat.mul_div_cancel _ (get_type_size_pos p.ptype)]
  · rw [matrixLine, if_pos (Or.inl hu), hu]
    rw [show get_type_size ParamType.utf8 = 1 from rfl, Nat.div_one]
  · rw [matrixLine, if_neg]
    rw [hlen]
    simp [hu]

/-- Witness for C1: a one-byte text parameter emits `MATRIX_DIM 1`, an
eight-byte 32-bit parameter emits `MATRIX_DIM 2`, and a four-byte 32-bit
parameter emits no marker. -/
theorem c1_matrix_dim_witness :
    matrixLine ⟨"T", ParamType.utf8, [65], 0, none⟩
        = "        MATRIX_DIM " ++ toString 1 ++ "\n"
    ∧ matrixLine ⟨"U", ParamType.uint32, [1, 2, 3, 4, 5, 6, 7, 8], 4, none⟩
        = "        MATRIX_DIM " ++ toString 2 ++ "\n"
    ∧ matrixLine ⟨"V", ParamType.uint32, [1, 2, 3, 4], 8, none⟩ = "" :=
  ⟨by
      have h := (c1_matrix_dim ⟨"T", ParamType.utf8, [65], 0, none⟩).2.2.1 rfl
      simpa using h,
   (c1_matrix_dim _).2.1 2 (by decide) (by decide),
   (c1_matrix_dim _).2.2.2 (by decide) (by decide)⟩

/-- C2: the integer rows of the wire-type table — each unsigned n-bit type
maps to a distinct unsigned wire name with range [0, 2^n − 1], each signed
n-bit type to a distinct signed wire name with range [−2^(n−1), 2^(n−1) − 1],
and the text type maps to the same entry as the unsigned 8-bit type. -/
theorem c2_integer_table :
    (TYPE_MAPPING .uint8 = ("UBYTE", 0, 2 ^ 8 - 1)
      ∧ TYPE_MAPPING .uint16 = ("UWORD", 0, 2 ^ 16 - 1)
      ∧ TYPE_MAPPING .uint32 = ("ULONG", 0, 2 ^ 32 - 1)
      ∧ TYPE_MAPPING .uint64 = ("A_UINT64", 0, 2 ^ 64 - 1))
    ∧ (TYPE_MAPPING .int8 = ("SBYTE", -2 ^ 7, 2 ^ 7 - 1)
      ∧ TYPE_MAPPING .int16 = ("SWORD", -2 ^ 15, 2 ^ 15 - 1)
      ∧ TYPE_MAPPING .int32 = ("SLONG", -2 ^ 31, 2 ^ 31 - 1)
      ∧ TYPE_MAPPING .int64 = ("_A_INT64", -2 ^ 63, 2 ^ 63 - 1))
    ∧ ((TYPE_MAPPING .uint16).2 = (0, 65535)
      ∧ (TYPE_MAPPING .int32).2 = (-2147483648, 2147483647))
    ∧ ([(TYPE_MAPPING .uint8).1, (TYPE_MAPPING .uint16).1,
         (TYPE_MAPPING .uint32).1, (TYPE_MAPPING .uint64).1].Pairwise (· ≠ ·))
    ∧ ([(TYPE_MAPPING .int8).1, (TYPE_MAPPING .int16).1,
         (TYPE_MAPPING .int32).1, (TYPE_MAPPING .int64).1].Pairwise (· ≠ ·))
    ∧ TYPE_MAPPING .utf8 = TYPE_MAPPING .uint8 := by
  refine ⟨⟨?_, ?_, ?_, ?_⟩, ⟨?_, ?_, ?_, ?_⟩, ⟨?_, ?_⟩, ?_, ?_, rfl⟩ <;>
    first
      | (norm_num [TYPE_MAPPING, Prod.ext_iff]; done)
      | decide

/-- C5 counterexample: the tabulated 32-bit-float minimum is the positive
smallest-normal constant, not the negation of the rendered maximum. -/
theorem c5_counterexample :
    0 < (TYPE_MAPPING ParamType.float32).2.1
    ∧ ¬(TYPE_MAPPING ParamType.float32).2.1
        = -(TYPE_MAPPING ParamType.float32).2.2 := by
  constructor <;> norm_num [TYPE_MAPPING]

/-- C5 amended: for each float type the table renders the IEEE wire name
with minimum the smallest positive normal value of that precision (as the
decimal constant of the source) and maximum the largest finite value; for both
float types the minimum is strictly positive — so it is not the most
negative finite value and not the negation of the maximum. -/
theorem c5_float_limits :
    ((TYPE_MAPPING ParamType.float32).1 = "FLOAT32_IEEE"
      ∧ (TYPE_MAPPING ParamType.float32).2.1 = 1175494351 / 10 ^ 47
      ∧ (TYPE_MAPPING ParamType.float32).2.2 = 3402823466 * 10 ^ 29
      ∧ 0 < (TYPE_MAPPING ParamType.float32).2.1
      ∧ ¬(TYPE_MAPPING ParamType.float32).2.1
          = -(TYPE_MAPPING ParamType.float32).2.2)
    ∧ ((TYPE_MAPPING ParamType.float64).1 = "FLOAT64_IEEE"
      ∧ (TYPE_MAPPING ParamType.float64).2.1 = 22250738585072014 / 10 ^ 324
      ∧ (TYPE_MAPPING ParamType.float64).2.2 = 17976931348623158 * 10 ^ 292
      ∧ 0 < (TYPE_MAPPING ParamType.float64).2.1
      ∧ ¬(TYPE_MAPPING ParamType.float64).2.1
          = -(TYPE_MAPPING ParamType.float64).2.2) := by
  refine ⟨⟨rfl, rfl, rfl, ?_, ?_⟩, ⟨rfl, rfl, rfl, ?_, ?_⟩⟩ <;>
    norm_num [TYPE_MAPPING]

/-- C10: the MEASUREMENT record written by `begin_parameter` depends on the
owning block only through its endianness — two context blocks with equal
endianness (arbitrary base addresses, names, headers, parameter lists)
yield identical output for the same parameter. -/
theorem c10_block_independence (b1 b2 : Block) (p : Parameter)
    (h : b1.endianess = b2.endianess) :
    begin_parameter b1 p = begin_parameter b2 p := by
  have hm : measurementText b1 p = measurementText b2 p := by
    funext d
    simp only [measurementText, typeLimitsPart, h]
  rw [begin_parameter, begin_parameter, hm]

/-- Witness for C10: two blocks differing in name, base address, header and
parameter list but sharing little-endianness give the same record. -/
theorem c10_block_independence_witness :
    (Block.mk ("A") 4096 Endianness.le none []).endianess
      = (Block.mk ("B") 8192 Endianness.le (some ()) []).endianess
    ∧ begin_parameter (Block.mk ("A") 4096 Endianness.le none [])
          ⟨"P", ParamType.int16, [1, 2], 6, some ("c")⟩
        = begin_parameter (Block.mk ("B") 8192 Endianness.le (some ()) [])
          ⟨"P", ParamType.int16, [1, 2], 6, some ("c")⟩ :=
  ⟨rfl, c10_block_independence _ _ _ rfl⟩

/-- C4: the ECU_ADDRESS field of a successfully rendered measurement record
is the raw block-relative parameter offset as a hexadecimal literal,
followed by the fixed zero address-space-extension tag, and the record does
not depend on the base address of the owning block at all. -/
theorem c4_ecu_address (blk : Block) (p : Parameter) (r : String)
    (h : begin_parameter blk p = .ok r) :
    strContains r ("        ECU_ADDRESS " ++ pyHex p.offset ++ "\n"
        ++ "        ECU_ADDRESS_EXTENSION 0x0\n") = true
    ∧ ∀ a : Nat, begin_parameter { blk with addr := a } p = begin_parameter blk p := by
  constructor
  · rcases hd : descrText p.comment with e | d
    · rw [begin_parameter, hd] at h
      cases h
    · rw [begin_parameter, hd] at h
      cases h
      have hre : measurementText blk p d
          = (recordOpen p ++ descrQuoted d ++ typeLimitsPart blk p ++ matrixLine p)
            ++ (ecuLines p ++ (dispLines p ++ "    /end MEASUREMENT\n")) := by
        simp only [measurementText, String.append_assoc]
      rw [hre]
      exact strContains_of_parts _ (ecuLines p) _
  · intro a
    rfl

/-- Witness for C4: a parameter at offset 0 inside a block based at 0x1000
is rendered with ECU_ADDRESS 0x0 and the record ignores the base address. -/
theorem c4_ecu_address_witness :
    strContains
        (measurementText (Block.mk ("B") 4096 Endianness.le none [])
          ⟨"P1", ParamType.uint16, [0, 0], 0, none⟩ "No comment defined")
        (("        ECU_ADDRESS " ++ pyHex 0 ++ "\n")
          ++ "        ECU_ADDRESS_EXTENSION 0x0\n") = true
    ∧ ∀ a : Nat,
        begin_parameter
            { Block.mk ("B") 4096 Endianness.le none [] with addr := a }
            ⟨"P1", ParamType.uint16, [0, 0], 0, none⟩
          = begin_parameter (Block.mk ("B") 4096 Endianness.le none [])
            ⟨"P1", ParamType.uint16, [0, 0], 0, none⟩ :=
  c4_ecu_address (Block.mk ("B") 4096 Endianness.le none [])
    ⟨"P1", ParamType.uint16, [0, 0], 0, none⟩ _ rfl

/-- C7: when the comment is absent the rendered description is exactly the
placeholder text, and when the comment has a first line the rendered record
is the one built from that first line alone — later comment lines can never
appear since `measurementText` does not read the comment at all (third
conjunct). -/
theorem c7_description (blk : Block) (p : Parameter) :
    (p.comment = none →
      begin_parameter blk p = .ok (measurementText blk p ("No comment defined")))
    ∧ (∀ c l rest, p.comment = some c → splitlines c = l :: rest →
        begin_parameter blk p = .ok (measurementText blk p l))
    ∧ (∀ d, measurementText blk p d
        = measurementText blk { p with comment := none } d) := by
  refine ⟨fun h => ?_, fun c l rest hc hs => ?_, fun d => rfl⟩
  · rw [begin_parameter, h]
    rfl
  · rw [begin_parameter, hc]
    simp only [descrText, hs]
    rfl

/-- Witness for C7: a parameter with the two-line comment
"first\nsecond" renders the record for "first" only, and a
comment-free parameter renders the placeholder record. -/
theorem c7_description_witness :
    begin_parameter (Block.mk ("B") 0 Endianness.le none [])
        ⟨"P", ParamType.uint8, [1], 0, some ("first\nsecond")⟩
      = .ok (measurementText (Block.mk ("B") 0 Endianness.le none [])
          ⟨"P", ParamType.uint8, [1], 0, some ("first\nsecond")⟩ "first")
    ∧ begin_parameter (Block.mk ("B") 0 Endianness.le none [])
        ⟨"Q", ParamType.uint8, [1], 0, none⟩
      = .ok (measurementText (Block.mk ("B") 0 Endianness.le none [])
          ⟨"Q", ParamType.uint8, [1], 0, none⟩ "No comment defined") :=
  ⟨((c7_description _ _).2.1) ("first\nsecond") ("first") (["second"]) rfl (by decide),
   (c7_description _ _).1 rfl⟩

/-- C9: `begin_parameter` renders a record iff the comment is not the
present-but-empty string; a present empty comment makes the first-line
lookup fail with an index-out-of-range error, because `"".splitlines()`
is the empty list. -/
theorem c9_empty_comment (blk : Block) (p : Parameter) :
    (p.comment = some ("") →
      begin_parameter blk p = .error ("IndexError: list index out of range"))
    ∧ (¬p.comment = some ("") → ∃ r, begin_parameter blk p = .ok r) := by
  constructor
  · intro h
    rw [begin_parameter, h]
    rfl
  · intro h
    rcases hc : p.comment with _ | c
    · exact ⟨_, by rw [begin_parameter, hc]; rfl⟩
    · have hne : ¬c = "" := fun he => h (by rw [hc, he])
      rcases hs : splitlines c with _ | ⟨l, rest⟩
      · exact absurd ((splitlines_eq_nil c).mp hs) hne
      · refine ⟨measurementText blk p l, ?_⟩
        rw [begin_parameter, hc]
        simp only [descrText, hs]
        rfl

/-- Witness for C9: a present empty comment fails with the index error
while an absent comment succeeds. -/
theorem c9_empty_comment_witness :
    begin_parameter (Block.mk ("B") 0 Endianness.le none [])
        ⟨"P", ParamType.uint8, [1], 0, some ("")⟩
      = .error ("IndexError: list index out of range")
    ∧ ∃ r, begin_parameter (Block.mk ("B") 0 Endianness.le none [])
        ⟨"Q", ParamType.uint8, [1], 0, none⟩ = .ok r :=
  ⟨(c9_empty_comment _ _).1 rfl, (c9_empty_comment _ _).2 (by decide)⟩

/-- C3 counterexample: with the static-output flag absent from the options
(`None`, hence "not set"), the header comment contains no timestamp line —
the source emits the timestamp/buildkey lines only when the flag is present
and exactly `False`, so the case "absent behaves like not set" of the claim
fails. -/
theorem c3_counterexample :
    (Options.mk (".") "base" "pagen" "1.0" "in.xml" "cmd" (none) "2031-01-01" "g1").STATICOUTPUT
        ≠ some true
    ∧ (Options.mk (".") "base" "pagen" "1.0" "in.xml" "cmd" (none) "2031-01-01" "g1").STATICOUTPUT
        ≠ some false
    ∧ strContains
        (pre_run (Options.mk (".") "base" "pagen" "1.0" "in.xml" "cmd" (none) "2031-01-01" "g1"))
        " * Date: " = false
    ∧ strContains
        (pre_run (Options.mk (".") "base" "pagen" "1.0" "in.xml" "cmd" (none) "2031-01-01" "g1"))
        " * Buildkey: " = false := by
  refine ⟨by decide, by decide, by decide, by decide⟩

/-- C3 amended: `pre_run` writes the timestamp and build-identifier lines
iff the static-output flag is present with value `False`; for any other
value — `True` or the key absent — the two lines are omitted. -/
theorem c3_static_output (o : Options) :
    (o.STATICOUTPUT = some false →
      pre_run o = headerIntro o ++ (dateLines o ++ headerRest o))
    ∧ (¬o.STATICOUTPUT = some false →
      pre_run o = headerIntro o ++ headerRest o) :=
  ⟨pre_run_static_false o, pre_run_not_static_false o⟩

/-- Witness for C3: concrete option sets with the flag `False`, `True` and
absent. -/
theorem c3_static_output_witness :
    pre_run (Options.mk (".") "b" "p" "1" "i" "c" (some false) "d" "g")
      = headerIntro (Options.mk (".") "b" "p" "1" "i" "c" (some false) "d" "g")
        ++ (dateLines (Options.mk (".") "b" "p" "1" "i" "c" (some false) "d" "g")
          ++ headerRest (Options.mk (".") "b" "p" "1" "i" "c" (some false) "d" "g"))
    ∧ pre_run (Options.mk (".") "b" "p" "1" "i" "c" (some true) "d" "g")
      = headerIntro (Options.mk (".") "b" "p" "1" "i" "c" (some true) "d" "g")
        ++ headerRest (Options.mk (".") "b" "p" "1" "i" "c" (some true) "d" "g")
    ∧ pre_run (Options.mk (".") "b" "p" "1" "i" "c" (none) "d" "g")
      = headerIntro (Options.mk (".") "b" "p" "1" "i" "c" (none) "d" "g")
        ++ headerRest (Options.mk (".") "b" "p" "1" "i" "c" (none) "d" "g") :=
  ⟨(c3_static_output _).1 rfl,
   (c3_static_output _).2 (by decide),
   (c3_static_output _).2 (by decide)⟩

/-- C8: a block that declares a header emits, in order, the 16-bit and
32-bit unsigned measurement-type declarations named from the name of the block
with registry-derived wire names and ranges, a structure-type declaration
`<block>_header_type_t` of total size 16 with the six fields id, major,
minor, dataver, reserved, length at byte offsets 0, 2, 4, 6, 8, 12, and an
instance declaration binding that type to the base address of the block as a
hexadecimal literal; a headerless block emits nothing. -/
theorem c8_block_header (b : Block) :
    (b.header = none → begin_block b = "")
    ∧ (¬b.header = none →
        begin_block b
          = "\n"
            ++ specTypedefMeasurement (b.name) "_USHORT" "block 16 bit parameter type" .uint16
            ++ "\n"
            ++ specTypedefMeasurement (b.name) "_ULONG" "block 32 bit parameter type" .uint32
            ++ "\n"
            ++ specStructTypedef (b.name) 16 (specHeaderFields (b.name))
            ++ specInstance (b.name) b.addr) := by
  constructor
  · intro h
    simp only [begin_block, h]
  · intro h
    rcases hb : b.header with _ | u
    · exact absurd hb h
    · simp only [begin_block, hb]
      exact blockHeaderText_eq_spec b

/-- Witness for C8: a concrete block with a header emits exactly the four
declarations, and a concrete headerless block emits nothing. -/
theorem c8_block_header_witness :
    begin_block (Block.mk ("Blk") 4096 Endianness.le (some ()) [])
      = "\n"
        ++ specTypedefMeasurement ("Blk") "_USHORT" "block 16 bit parameter type" .uint16
        ++ "\n"
        ++ specTypedefMeasurement ("Blk") "_ULONG" "block 32 bit parameter type" .uint32
        ++ "\n"
        ++ specStructTypedef ("Blk") 16 (specHeaderFields ("Blk"))
        ++ specInstance ("Blk") 4096
    ∧ begin_block (Block.mk ("NoHdr") 0 Endianness.be none []) = "" :=
  ⟨(c8_block_header (Block.mk ("Blk") 4096 Endianness.le (some ()) [])).2 (by decide),
   (c8_block_header _).1 rfl⟩

/-- C6: with identical model and identical options apart from the per-run
timestamp and build identifier, a run with the static-output flag set
produces byte-identical output, and a run with the flag unset produces
outputs that differ only inside the date/buildkey lines of the header
comment (everything before and after those two lines is identical). -/
theorem c6_determinism (m : Model) (o1 o2 : Options)
    (hB : o1.BASENAME = o2.BASENAME) (hP : o1.PNAME = o2.PNAME)
    (hV : o1.VERSION = o2.VERSION) (hI : o1.INPUT = o2.INPUT)
    (hC : o1.CMDLINE = o2.CMDLINE) (hS : o1.STATICOUTPUT = o2.STATICOUTPUT) :
    (o1.STATICOUTPUT = some true → run m o1 = run m o2)
    ∧ (o1.STATICOUTPUT = some false →
        ∀ r1 r2, run m o1 = .ok r1 → run m o2 = .ok r2 →
          ∃ pre post, r1 = pre ++ (dateLines o1 ++ post)
            ∧ r2 = pre ++ (dateLines o2 ++ post)) := by
  have hintro : headerIntro o1 = headerIntro o2 := headerIntro_congr o1 o2 hP hV hI hC
  have hrest : headerRest o1 = headerRest o2 := headerRest_congr o1 o2 hB
  constructor
  · intro h1
    have hpre : pre_run o1 = pre_run o2 := by
      rw [pre_run_not_static_false o1 (by rw [h1]; exact fun hcon => by cases hcon),
        pre_run_not_static_false o2 (by rw [← hS, h1]; exact fun hcon => by cases hcon),
        hintro, hrest]
    simp only [run, hpre]
  · intro h1 r1 r2 hr1 hr2
    have h2 : o2.STATICOUTPUT = some false := hS.symm.trans h1
    rcases hmm : m.container.mapM runContainer with e | outs
    · simp only [run, hmm, Except.map] at hr1
      exact Except.noConfusion hr1
    · simp only [run, hmm, Except.map, Except.ok.injEq] at hr1 hr2
      refine ⟨headerIntro o1, headerRest o1 ++ (String.join outs ++ post_run), ?_, ?_⟩
      · rw [← hr1, pre_run_static_false o1 h1]
        simp only [String.append_assoc]
      · rw [← hr2, pre_run_static_false o2 h2, hintro, hrest]
        simp only [String.append_assoc]

/-- Witness for C6: over the empty model, two runs with the flag set and
different timestamp/buildkey options coincide; with the flag explicitly
unset the two outputs share the text around their date/buildkey lines. -/
theorem c6_determinism_witness :
    run (Model.mk []) (Options.mk (".") "b" "p" "1" "i" "c" (some true) "d1" "g1")
      = run (Model.mk []) (Options.mk (".") "b" "p" "1" "i" "c" (some true) "d2" "g2")
    ∧ ∃ pre post,
        pre_run (Options.mk (".") "b" "p" "1" "i" "c" (some false) "d1" "g1")
            ++ String.join [] ++ post_run
          = pre ++ (dateLines (Options.mk (".") "b" "p" "1" "i" "c" (some false) "d1" "g1")
              ++ post)
        ∧ pre_run (Options.mk (".") "b" "p" "1" "i" "c" (some false) "d2" "g2")
            ++ String.join [] ++ post_run
          = pre ++ (dateLines (Options.mk (".") "b" "p" "1" "i" "c" (some false) "d2" "g2")
              ++ post) :=
  ⟨(c6_determinism (Model.mk [])
      (Options.mk (".") "b" "p" "1" "i" "c" (some true) "d1" "g1")
      (Options.mk (".") "b" "p" "1" "i" "c" (some true) "d2" "g2")
      rfl rfl rfl rfl rfl rfl).1 rfl,
   (c6_determinism (Model.mk [])
      (Options.mk (".") "b" "p" "1" "i" "c" (some false) "d1" "g1")
      (Options.mk (".") "b" "p" "1" "i" "c" (some false) "d2" "g2")
      rfl rfl rfl rfl rfl rfl).2 rfl _ _ rfl rfl⟩

end A2l
